import Mathlib

/-!
# SigmaGPT backend — shallow embedding and verification

This file embeds the data model and the request handlers of the SigmaGPT
backend (an Express + Mongoose chat application) as pure Lean functions over
an explicit store, and proves or refutes the frozen specification claims
about them.

Embedding conventions:
* MongoDB collections are ordered lists (natural = insertion order); the
  store also carries a logical clock used for the server-assigned
  `createdAt` timestamps produced by Mongoose's `timestamps: true` option.
* Mongoose schema setters (`trim`, `lowercase`) are applied where Mongoose
  applies them: on document paths at create time and — for `lowercase` on
  `User.email` — on query filter values (Mongoose ≥ 6 runs setters on
  query filters).
* `jwt.verify`, `bcrypt` and the remote OpenAI calls are external effects;
  they enter the embedding as explicit parameters describing their outcome.
* A handler that ends in `res.status(code).json(body)` is modelled as a
  function returning a response value (status, body fields) together with
  the post-state of the store.
-/

namespace SigmaGPT

/-- A document of the `User` collection (`src/Backend/models/User`): name,
email (stored lowercased by the schema setter), bcrypt password hash, role.
`id` models the Mongo `_id`. -/
structure User where
  id : Nat
  name : String
  email : String
  password : String
  role : String
deriving DecidableEq

/-- A document of the `Thread` collection (`src/Backend/models/Thread.js`):
client-generated `threadId` (unique across the whole collection), trimmed
`title`, owning `userId`; `createdAt` comes from `timestamps: true`. -/
structure Thread where
  threadId : String
  title : String
  userId : Nat
  createdAt : Nat
deriving DecidableEq

/-- A document of the `Message` collection (`src/Backend/models/Message.js`):
owning `userId`, `threadId`, role restricted to `user`/`assistant`, trimmed
non-empty `content`; `createdAt` comes from `timestamps: true`. -/
structure Message where
  userId : Nat
  threadId : String
  role : String
  content : String
  createdAt : Nat
deriving DecidableEq

/-- The MongoDB database: the three collections in insertion order plus a
logical clock supplying `_id`s and `createdAt` timestamps (the server clock
is monotone across the single-threaded store operations of one request). -/
structure Store where
  users : List User
  threads : List Thread
  messages : List Message
  clock : Nat
deriving DecidableEq

/-- The empty database. -/
def emptyStore : Store := ⟨[], [], [], 0⟩

/-- An error response: HTTP status plus the `message` field of the JSON
body, e.g. `res.status(404).json({ message: "Thread not found" })`. -/
structure ApiError where
  status : Nat
  message : String
deriving DecidableEq

/-! ## JavaScript string primitives

The JS string operations the handlers use (`trim`, `toLowerCase`,
`split(" ")`, `join(" ")`, `length`), implemented by structural recursion
over the character list of the string so that concrete instances reduce
inside the kernel. -/

/-- The ASCII whitespace characters relevant to `String.prototype.trim`. -/
def jsWhitespaceChar (c : Char) : Bool :=
  c == ' ' || c == '\t' || c == '\n' || c == '\r'

/-- `s.trim()` / Mongoose `trim: true`: strip leading and trailing
whitespace. -/
def jsTrim (s : String) : String :=
  ⟨((s.data.dropWhile jsWhitespaceChar).reverse.dropWhile jsWhitespaceChar).reverse⟩

/-- `s.toLowerCase()` / Mongoose `lowercase: true` (ASCII emails). -/
def jsToLower (s : String) : String :=
  ⟨s.data.map Char.toLower⟩

/-- Helper for `jsSplitSpace`: accumulates the current word (reversed). -/
def splitSpaceAux : List Char → List Char → List String
  | [], acc => [⟨acc.reverse⟩]
  | c :: rest, acc =>
    if c == ' ' then (⟨acc.reverse⟩ : String) :: splitSpaceAux rest []
    else splitSpaceAux rest (c :: acc)

/-- `s.split(" ")`: split at every single space (empty fragments kept,
exactly as in JS). -/
def jsSplitSpace (s : String) : List String :=
  splitSpaceAux s.data []

/-- `parts.join(" ")`. -/
def jsJoinSpace : List String → String
  | [] => ""
  | [x] => x
  | x :: xs => x ++ " " ++ jsJoinSpace xs

/-- `s.length` (code units; the strings involved are ASCII). -/
def jsLen (s : String) : Nat := s.data.length

/-! ## Store operations (Mongoose model calls) -/

/-- `Message.create({ userId, threadId, role, content })`: the schema
applies the `trim` setter to `content` and then validates `required` (a
string fails `required` when empty), `threadId` `required`, and the
`role` enum; on success the document is inserted with `createdAt` taken
from the clock. A validation failure rejects the promise (`.error`). -/
def Message.create (s : Store) (userId : Nat) (threadId role content : String) :
    Except String (Message × Store) :=
  if threadId = "" then .error "Message validation failed: threadId required"
  else if ¬ (role = "user" ∨ role = "assistant") then
    .error "Message validation failed: role enum"
  else if jsTrim content = "" then .error "Message validation failed: content required"
  else
    .ok (⟨userId, threadId, role, jsTrim content, s.clock⟩,
         { s with
            messages := s.messages ++ [⟨userId, threadId, role, jsTrim content, s.clock⟩],
            clock := s.clock + 1 })

/-- `Thread.findOne({ threadId, userId })`. -/
def Thread.findOne (s : Store) (threadId : String) (userId : Nat) : Option Thread :=
  s.threads.find? (fun t => t.threadId == threadId && t.userId == userId)

/-- `Thread.create({ threadId, title, userId })`: `title` is trimmed and must
be non-empty (`required`), `threadId` is `required` and carries a `unique`
index over the whole collection (across all users), so creation fails with a
duplicate-key error when any thread already uses `threadId`. -/
def Thread.create (s : Store) (threadId title : String) (userId : Nat) :
    Except String (Thread × Store) :=
  if threadId = "" then .error "Thread validation failed: threadId required"
  else if jsTrim title = "" then .error "Thread validation failed: title required"
  else if s.threads.any (fun t => t.threadId == threadId) then
    .error "E11000 duplicate key error: threadId"
  else
    .ok (⟨threadId, jsTrim title, userId, s.clock⟩,
         { s with
            threads := s.threads ++ [⟨threadId, jsTrim title, userId, s.clock⟩],
            clock := s.clock + 1 })

/-- `Thread.findOneAndDelete({ threadId, userId })`: returns the matched
document (if any) and removes it. The `unique` index on `threadId` means at
most one document matches, so removing every match removes that one. -/
def Thread.findOneAndDelete (s : Store) (threadId : String) (userId : Nat) :
    Option Thread × Store :=
  match Thread.findOne s threadId userId with
  | none => (none, s)
  | some t =>
      (some t,
       { s with threads :=
          s.threads.filter (fun x => ! (x.threadId == threadId && x.userId == userId)) })

/-- `Thread.deleteMany({ userId })`: removes every thread of the user and
reports `deletedCount`. -/
def Thread.deleteMany (s : Store) (userId : Nat) : Nat × Store :=
  let removed := s.threads.filter (fun t => t.userId == userId)
  (removed.length, { s with threads := s.threads.filter (fun t => ! (t.userId == userId)) })

/-- `Message.deleteMany({ threadId, userId })`: removes every message of the
(thread, user) pair and reports `deletedCount`. -/
def Message.deleteMany (s : Store) (threadId : String) (userId : Nat) : Nat × Store :=
  let removed := s.messages.filter (fun m => m.threadId == threadId && m.userId == userId)
  (removed.length,
   { s with messages :=
      s.messages.filter (fun m => ! (m.threadId == threadId && m.userId == userId)) })

/-- `Message.find({ userId, threadId })` (also used with the filter written
`{ threadId, userId }` — the same predicate): the documents of the pair in
natural (insertion) order. -/
def Message.findMany (s : Store) (userId : Nat) (threadId : String) : List Message :=
  s.messages.filter (fun m => m.userId == userId && m.threadId == threadId)

/-- `.sort({ timestamp: 1 })` as written in `getHistory`/`getThreadById`.
The `Message` schema defines no `timestamp` path (`timestamps: true` yields
`createdAt`/`updatedAt`), so every document is missing the sort key and all
compare equal; the result keeps the store's natural (insertion) order. -/
def sortByTimestamp (l : List Message) : List Message := l

/-- `Thread.find({ userId }).sort({ createdAt: -1 })`: the user's threads,
newest creation first (insertion sort, descending by `createdAt`). -/
def Thread.findByUserNewestFirst (s : Store) (userId : Nat) : List Thread :=
  (s.threads.filter (fun t => t.userId == userId)).insertionSort
    (fun a b => b.createdAt ≤ a.createdAt)

/-- `User.findOne({ email })`: the `lowercase: true` setter of the `email`
path runs on the query filter value (Mongoose ≥ 6 applies setters to query
filters), so the lookup compares the lowercased argument against the stored
(lowercased) emails. -/
def User.findOneByEmail (s : Store) (email : String) : Option User :=
  s.users.find? (fun u => u.email == jsToLower email)

/-- `User.findById(id)`. -/
def User.findById (s : Store) (id : Nat) : Option User :=
  s.users.find? (fun u => u.id == id)

/-- The schema `match` validator `/.+\@.+\..+/` applied with an unanchored
regex test: some position `i ≥ 1` holds `@` and some position `j ≥ i + 2`
holds `.` with at least one character after it. -/
def emailFormatOk (e : String) : Bool :=
  let cs := e.toList
  (List.range cs.length).any (fun i =>
    cs.getD i ' ' == '@' && 1 ≤ i &&
    (List.range cs.length).any (fun j =>
      cs.getD j ' ' == '.' && i + 2 ≤ j && j + 2 ≤ cs.length))

/-- `User.create({ name, email, password, role })`: `name` is trimmed and
required, `email` is lowercased, required, format-checked and unique,
`password` (the bcrypt hash) has `minlength` 6. -/
def User.create (s : Store) (name email password role : String) :
    Except String (User × Store) :=
  if jsTrim name = "" then .error "User validation failed: Name is required"
  else if jsToLower email = "" ∨ emailFormatOk (jsToLower email) = false then
    .error "User validation failed: email"
  else if jsLen password < 6 then
    .error "User validation failed: password minlength"
  else if s.users.any (fun u => u.email == jsToLower email) then
    .error "E11000 duplicate key error: email"
  else
    .ok (⟨s.clock, jsTrim name, jsToLower email, password, role⟩,
         { s with
            users := s.users ++ [⟨s.clock, jsTrim name, jsToLower email, password, role⟩],
            clock := s.clock + 1 })

/-! ## Chat controller (`src/Backend/controllers/chatController.js`) -/

/-- Outcome of the `fetch` to the OpenAI chat-completion endpoint as seen by
`sendMessage`: the promise can reject (network error), the response can be
non-ok, `res.json()` can reject (body not JSON), or parsing succeeds and
`data?.choices?.[0]?.message?.content` is extracted (absent paths give
`none`). -/
inductive FetchResult where
  | netError
  | httpError
  | badJson
  | ok (content : Option String)
deriving DecidableEq

/-- Result of `sendMessage`: an error response, or
`res.json({ reply, history: [userMsg, botMsg] })`. -/
inductive SendResult where
  | err (e : ApiError)
  | ok (reply : String) (history : List Message)
deriving DecidableEq

/-- Line 69: `data?.choices?.[0]?.message?.content?.trim() || " No reply"` —
a missing path or an empty-after-trim content falls through `||` to the
placeholder. -/
def extractReply (content : Option String) : String :=
  match content with
  | none => " No reply"
  | some c => if jsTrim c = "" then " No reply" else jsTrim c

/-- Line 82: `message.split(" ").slice(0, 5).join(" ")`. -/
def titleFromMessage (message : String) : String :=
  jsJoinSpace ((jsSplitSpace message).take 5)

/-- `sendMessage` (POST `/chat`): validate `message`/`threadId` (JS falsiness
of the empty string), persist the user message, call OpenAI (`fetch`),
persist the assistant reply, lazily create the thread, and return both
messages. A thrown store/parse error lands in the catch-all
(500 "Chat error"); a non-ok OpenAI response returns
500 "OpenAI API error". -/
def sendMessage (s : Store) (userId : Nat) (message threadId : String)
    (fetch : FetchResult) : SendResult × Store :=
  if message = "" ∨ threadId = "" then
    (.err ⟨400, "Message and threadId required"⟩, s)
  else
    match Message.create s userId threadId "user" message with
    | .error _ => (.err ⟨500, "Chat error"⟩, s)
    | .ok (userMsg, s1) =>
      match fetch with
      | .netError => (.err ⟨500, "Chat error"⟩, s1)
      | .httpError => (.err ⟨500, "OpenAI API error"⟩, s1)
      | .badJson => (.err ⟨500, "Chat error"⟩, s1)
      | .ok content =>
        match Message.create s1 userId threadId "assistant" (extractReply content) with
        | .error _ => (.err ⟨500, "Chat error"⟩, s1)
        | .ok (botMsg, s2) =>
          match Thread.findOne s2 threadId userId with
          | some _ => (.ok (extractReply content) [userMsg, botMsg], s2)
          | none =>
            match Thread.create s2 threadId (titleFromMessage message) userId with
            | .error _ => (.err ⟨500, "Chat error"⟩, s2)
            | .ok (_, s3) => (.ok (extractReply content) [userMsg, botMsg], s3)

/-- Result of a handler answering with a message list (`getHistory`,
`getThreadById`). -/
inductive HistoryResult where
  | err (e : ApiError)
  | ok (messages : List Message)
deriving DecidableEq

/-- `getHistory` (GET `/history/:threadId`): the user's messages of the
thread, sorted with the (vacuous) `timestamp` key; 404 when the list is
empty. -/
def getHistory (s : Store) (userId : Nat) (threadId : String) : HistoryResult :=
  let messages := sortByTimestamp (Message.findMany s userId threadId)
  if messages.isEmpty then .err ⟨404, "No messages found for this thread"⟩
  else .ok messages

/-- `getThreads` (GET `/thread`): all threads of the user, newest first. -/
def getThreads (s : Store) (userId : Nat) : List Thread :=
  Thread.findByUserNewestFirst s userId

/-- `getThreadById` (GET `/thread/:threadId`): 404 "Thread not found" when
`Thread.findOne({ threadId, userId })` misses — the same response whether
the thread is absent or owned by another user; otherwise the thread's
messages. -/
def getThreadById (s : Store) (userId : Nat) (threadId : String) : HistoryResult :=
  match Thread.findOne s threadId userId with
  | none => .err ⟨404, "Thread not found"⟩
  | some _ => .ok (sortByTimestamp (Message.findMany s userId threadId))

/-- Result of `deleteThread`. -/
inductive DeleteResult where
  | err (e : ApiError)
  | ok (message : String)
deriving DecidableEq

/-- `deleteThread` (DELETE `/thread/:threadId`, `chatController`):
`findOneAndDelete` the thread (404 "Thread not found" on miss), then delete
all messages of the (threadId, userId) pair. -/
def deleteThread (s : Store) (userId : Nat) (threadId : String) :
    DeleteResult × Store :=
  match Thread.findOneAndDelete s threadId userId with
  | (none, s1) => (.err ⟨404, "Thread not found"⟩, s1)
  | (some _, s1) =>
      let (_, s2) := Message.deleteMany s1 threadId userId
      (.ok "Thread deleted successfully", s2)

/-- Result of `createThread`: the 201 response carries the (existing or
fresh) thread document. -/
inductive CreateThreadResult where
  | err (e : ApiError)
  | ok (status : Nat) (thread : Thread)
deriving DecidableEq

/-- `createThread` (POST `/thread`): validate, return the existing thread of
the user unchanged when present, otherwise create it; both paths answer
201. -/
def createThread (s : Store) (userId : Nat) (threadId title : String) :
    CreateThreadResult × Store :=
  if threadId = "" ∨ title = "" then
    (.err ⟨400, "ThreadId and title required"⟩, s)
  else
    match Thread.findOne s threadId userId with
    | some t => (.ok 201 t, s)
    | none =>
      match Thread.create s threadId title userId with
      | .error _ => (.err ⟨500, "Failed to create thread"⟩, s)
      | .ok (t, s1) => (.ok 201 t, s1)

/-! ## Clear-all route (`src/Backend/routes/chat.js`, DELETE `/thread/clear`) -/

/-- Response of the clear-all route: status, `success` flag and `message`
body field (the handler never reports a count in the response; the
`deletedCount` only goes to the console log). -/
structure ClearResult where
  status : Nat
  success : Bool
  message : String
deriving DecidableEq

/-- DELETE `/thread/clear`: after the `verifyToken` middleware, 401 when the
token carried no user id, otherwise `Thread.deleteMany({ userId })` and a
fixed success response. Messages are not touched. -/
def clearAllThreads (s : Store) (userId : Option Nat) : ClearResult × Store :=
  match userId with
  | none => (⟨401, false, "User ID missing in token"⟩, s)
  | some uid =>
      let (_, s1) := Thread.deleteMany s uid
      (⟨200, true, " All chats cleared successfully."⟩, s1)

/-! ## Auth controller (`src/Backend/controllers/authController.js`) -/

/-- A response of the auth controller: status, body `message`, optional
`user` body field, and whether the handler set the access/refresh cookies
on this response. -/
structure AuthResp where
  status : Nat
  message : String
  user : Option User
  setAccessCookie : Bool
  setRefreshCookie : Bool
deriving DecidableEq

/-- `register` (POST `/auth/register`): validate the three fields (JS
falsiness), answer 400 "Email already registered" when
`User.findOne({ email })` hits, otherwise hash the password (`bcrypt`,
modelled as the opaque `hash` parameter) and create the user with role
`"user"`, setting both token cookies. A store failure lands in the
catch-all 500. -/
def register (s : Store) (hash : String → String) (name email password : String) :
    AuthResp × Store :=
  if name = "" ∨ email = "" ∨ password = "" then
    (⟨400, "Missing fields", none, false, false⟩, s)
  else
    match User.findOneByEmail s email with
    | some _ => (⟨400, "Email already registered", none, false, false⟩, s)
    | none =>
      match User.create s name email (hash password) "user" with
      | .error _ => (⟨500, "Server error", none, false, false⟩, s)
      | .ok (u, s1) => (⟨200, "✅ Registration successful", some u, true, true⟩, s1)

/-- Outcome of `jwt.verify` on the refresh token: a decoded payload carrying
`userId`, or a thrown `JsonWebTokenError` (bad signature) or
`TokenExpiredError`. -/
inductive VerifyOutcome where
  | valid (userId : Nat)
  | invalidSig
  | expired
deriving DecidableEq

/-- `refresh` (POST `/auth/refresh`): 401 "No refresh token" without the
cookie; a `jwt.verify` throw (invalid signature or expiry) falls into the
catch-all and answers 500 "Server error"; an unknown decoded user answers
401; success rotates both cookies. -/
def refresh (s : Store) (verify : String → VerifyOutcome)
    (cookie : Option String) : AuthResp :=
  match cookie with
  | none => ⟨401, "No refresh token", none, false, false⟩
  | some tok =>
    match verify tok with
    | .invalidSig => ⟨500, "Server error", none, false, false⟩
    | .expired => ⟨500, "Server error", none, false, false⟩
    | .valid uid =>
      match User.findById s uid with
      | none => ⟨401, "User not found", none, false, false⟩
      | some u => ⟨200, " Token refreshed", some u, true, true⟩

/-! ## Voice route (`src/Backend/routes/voiceRoute.js`, POST `/voice`) -/

/-- The parts of a POST `/voice` request the embedding tracks: whether any
access-token cookie or authorization header came along (the route mounts no
`verifyToken` middleware, so these can only matter if the handler reads
them), and the optional uploaded audio file (multer's `req.file`). -/
structure VoiceReq where
  hasAccessCookie : Bool
  hasAuthHeader : Bool
  file : Option String
deriving DecidableEq

instance {ε α : Type} [DecidableEq ε] [DecidableEq α] : DecidableEq (Except ε α)
  | .error a, .error b =>
      if h : a = b then .isTrue (by rw [h])
      else .isFalse (by intro c; cases c; exact h rfl)
  | .error _, .ok _ => .isFalse (by intro h; cases h)
  | .ok _, .error _ => .isFalse (by intro h; cases h)
  | .ok a, .ok b =>
      if h : a = b then .isTrue (by rw [h])
      else .isFalse (by intro c; cases c; exact h rfl)

/-- Outcomes of the three OpenAI calls the handler can make: Whisper
transcription (`response_format: "text"` gives a plain string), chat
completion (`chat.choices[0]?.message?.content`), and text-to-speech.
`.error` is a rejected promise. -/
structure VoiceUpstream where
  transcribe : Except String String
  complete : Except String (Option String)
  tts : Except String Unit
deriving DecidableEq

/-- Response of the voice route: every thrown error is answered as
`res.status(500).json({ error })`; success answers
`{ userText, text, language, audioUrl }`. -/
inductive VoiceResult where
  | err (status : Nat) (error : String)
  | ok (userText : String) (text : String) (language : String)
deriving DecidableEq

/-- POST `/voice` handler (deployment variant, lines 42–128): no credential
is ever read; a missing file throws ("No audio file received" → 500);
unclear audio (trimmed transcription shorter than 2) answers a fixed
fallback after a TTS call; otherwise the chat reply (or its fixed fallback
when the content path is absent) is synthesized and returned. -/
def voiceHandler (req : VoiceReq) (up : VoiceUpstream) : VoiceResult :=
  match req.file with
  | none => .err 500 "No audio file received"
  | some _ =>
    match up.transcribe with
    | .error e => .err 500 e
    | .ok transcription =>
      let userText := jsTrim transcription
      if userText = "" ∨ jsLen userText < 2 then
        match up.tts with
        | .error e => .err 500 e
        | .ok _ =>
            .ok userText "I couldn’t hear you clearly. Please say it again!" "en"
      else
        match up.complete with
        | .error e => .err 500 e
        | .ok content =>
          let aiReply :=
            match content with
            | some c => c
            | none => "Sorry, I didn’t understand."
          match up.tts with
          | .error e => .err 500 e
          | .ok _ => .ok userText aiReply "en"

/-! ## Invariants -/

/-- The spec's message/thread invariant: every message's
(userId, threadId) pair corresponds to a thread owned by the same user. -/
def msgThreadInvariant (s : Store) : Prop :=
  ∀ m ∈ s.messages, ∃ t ∈ s.threads, t.threadId = m.threadId ∧ t.userId = m.userId

instance (s : Store) : Decidable (msgThreadInvariant s) := by
  unfold msgThreadInvariant; infer_instance

/-- The spec's message-content invariant: every persisted message has
non-empty content after trimming. -/
def contentInvariant (s : Store) : Prop :=
  ∀ m ∈ s.messages, jsTrim m.content ≠ ""

instance (s : Store) : Decidable (contentInvariant s) := by
  unfold contentInvariant; infer_instance

/-- Well-formedness of a reachable store: message timestamps strictly
increase along insertion order and stay below the clock (the clock is
bumped at each insert). -/
def Store.WF (s : Store) : Prop :=
  s.messages.Pairwise (fun a b => a.createdAt < b.createdAt) ∧
  ∀ m ∈ s.messages, m.createdAt < s.clock

/-! ## Helper lemmas -/

/-- `jsTrim` written through Mathlib's `rdropWhile`. -/
theorem jsTrim_eq_rdropWhile (s : String) :
    jsTrim s = ⟨(s.data.dropWhile jsWhitespaceChar).rdropWhile jsWhitespaceChar⟩ := rfl

/-- The head surviving `dropWhile p` does not satisfy `p`. -/
theorem dropWhile_head?_false {α : Type} (p : α → Bool) (l : List α) (a : α)
    (h : (l.dropWhile p).head? = some a) : p a = false := by
  induction l with
  | nil => simp [List.dropWhile_nil] at h
  | cons c cs ih =>
    by_cases hc : p c = true
    · rw [List.dropWhile_cons, if_pos hc] at h
      exact ih h
    · rw [List.dropWhile_cons, if_neg hc] at h
      simp only [List.head?_cons, Option.some.injEq] at h
      subst h
      simpa using hc

/-- The list core of `jsTrim` is idempotent. -/
theorem trim_core_idem (p : Char → Bool) (l : List Char) :
    (((l.dropWhile p).rdropWhile p).dropWhile p).rdropWhile p =
      (l.dropWhile p).rdropWhile p := by
  have h1 : ((l.dropWhile p).rdropWhile p).dropWhile p = (l.dropWhile p).rdropWhile p := by
    rcases hR : (l.dropWhile p).rdropWhile p with _ | ⟨a, t⟩
    · simp
    · have hpre := List.rdropWhile_prefix p (l.dropWhile p)
      rw [hR] at hpre
      obtain ⟨u, hu⟩ := hpre
      have ha : p a = false := dropWhile_head?_false p l a (by rw [← hu]; rfl)
      simp [List.dropWhile_cons, ha]
  rw [h1, List.rdropWhile_idempotent]

/-- Trimming is idempotent. -/
theorem jsTrim_idem (s : String) : jsTrim (jsTrim s) = jsTrim s :=
  congrArg String.mk (trim_core_idem jsWhitespaceChar s.data)

/-- A non-empty trim result stays non-empty under another trim. -/
theorem jsTrim_jsTrim_ne (s : String) (h : jsTrim s ≠ "") :
    jsTrim (jsTrim s) ≠ "" := by
  rw [jsTrim_idem]; exact h

/-- Inversion of a successful `Message.create`. -/
theorem message_create_ok_inv {s : Store} {uid : Nat} {tid role content : String}
    {m : Message} {s' : Store}
    (h : Message.create s uid tid role content = .ok (m, s')) :
    tid ≠ "" ∧ (role = "user" ∨ role = "assistant") ∧ jsTrim content ≠ "" ∧
    m = ⟨uid, tid, role, jsTrim content, s.clock⟩ ∧
    s' = { s with messages := s.messages ++ [m], clock := s.clock + 1 } := by
  unfold Message.create at h
  split at h
  · simp at h
  next h1 =>
    split at h
    · simp at h
    next h2 =>
      split at h
      · simp at h
      next h3 =>
        simp only [Except.ok.injEq, Prod.mk.injEq] at h
        obtain ⟨hm, hs⟩ := h
        exact ⟨h1, not_not.mp h2, h3, hm.symm, by rw [← hs, hm]⟩

/-- Successful `Message.create` holds exactly when the validations pass. -/
theorem Message.create_eq_ok {s : Store} {uid : Nat} {tid role content : String}
    (h1 : tid ≠ "") (h2 : role = "user" ∨ role = "assistant")
    (h3 : jsTrim content ≠ "") :
    Message.create s uid tid role content =
      .ok (⟨uid, tid, role, jsTrim content, s.clock⟩,
           { s with
              messages := s.messages ++ [⟨uid, tid, role, jsTrim content, s.clock⟩],
              clock := s.clock + 1 }) := by
  unfold Message.create
  simp [h1, h3, h2]

/-- Inversion of a successful `Thread.create`. -/
theorem thread_create_ok_inv {s : Store} {tid title : String} {uid : Nat}
    {t : Thread} {s' : Store}
    (h : Thread.create s tid title uid = .ok (t, s')) :
    tid ≠ "" ∧ jsTrim title ≠ "" ∧
    t = ⟨tid, jsTrim title, uid, s.clock⟩ ∧
    s' = { s with threads := s.threads ++ [t], clock := s.clock + 1 } := by
  unfold Thread.create at h
  split at h
  · simp at h
  next h1 =>
    split at h
    · simp at h
    next h2 =>
      split at h
      · simp at h
      next h3 =>
        simp only [Except.ok.injEq, Prod.mk.injEq] at h
        obtain ⟨ht, hs⟩ := h
        exact ⟨h1, h2, ht.symm, by rw [← hs, ht]⟩

/-- `Thread.findOne` hit: the document is in the collection with the right
key pair. -/
theorem Thread.findOne_some_inv {s : Store} {tid : String} {uid : Nat}
    {t : Thread} (h : Thread.findOne s tid uid = some t) :
    t ∈ s.threads ∧ t.threadId = tid ∧ t.userId = uid := by
  unfold Thread.findOne at h
  refine ⟨List.mem_of_find?_eq_some h, ?_⟩
  have := List.find?_some h
  simpa using this

/-- Full inversion of a successful `sendMessage`: the request validated, the
remote call parsed, exactly the user and the assistant message were appended
(in this order, with consecutive timestamps), the reply is the extraction of
the remote content, and the thread for the pair either already existed or
was created for the caller. -/
theorem sendMessage_ok_inv {s : Store} {uid : Nat} {message tid : String}
    {fetch : FetchResult} {r : String} {hist : List Message} {s' : Store}
    (h : sendMessage s uid message tid fetch = (.ok r hist, s')) :
    message ≠ "" ∧ tid ≠ "" ∧ jsTrim message ≠ "" ∧
    (∃ c, fetch = .ok c ∧ r = extractReply c) ∧ jsTrim r ≠ "" ∧
    hist = [⟨uid, tid, "user", jsTrim message, s.clock⟩,
            ⟨uid, tid, "assistant", jsTrim r, s.clock + 1⟩] ∧
    s'.messages = s.messages ++ hist ∧
    s'.users = s.users ∧
    ((s'.threads = s.threads ∧ ∃ t ∈ s.threads, t.threadId = tid ∧ t.userId = uid) ∨
      (∃ t, s'.threads = s.threads ++ [t] ∧ t.threadId = tid ∧ t.userId = uid)) := by
  unfold sendMessage at h
  split at h
  · simp at h
  rename_i hval
  rw [not_or] at hval
  split at h
  · simp at h
  rename_i userMsg s1 hmc
  obtain ⟨htid, -, hmsg, hum, hs1⟩ := message_create_ok_inv hmc
  split at h
  · simp at h
  · simp at h
  · simp at h
  rename_i c
  split at h
  · simp at h
  rename_i botMsg s2 hbc
  obtain ⟨-, -, hrep, hbm, hs2⟩ := message_create_ok_inv hbc
  split at h
  · rename_i t hfind
    simp only [Prod.mk.injEq, SendResult.ok.injEq] at h
    obtain ⟨⟨hr, hh⟩, hs⟩ := h
    obtain ⟨htm, htt, htu⟩ := Thread.findOne_some_inv hfind
    subst hum hs1 hbm hs2 hr hh hs
    refine ⟨hval.1, hval.2, hmsg, ⟨c, rfl, rfl⟩, hrep, by simp, by simp, by simp, ?_⟩
    refine Or.inl ⟨by simp, t, ?_, htt, htu⟩
    simpa using htm
  · rename_i hfindnone
    split at h
    · simp at h
    rename_i t s3 htc
    obtain ⟨-, -, ht, hs3⟩ := thread_create_ok_inv htc
    simp only [Prod.mk.injEq, SendResult.ok.injEq] at h
    obtain ⟨⟨hr, hh⟩, hs⟩ := h
    subst hum hs1 hbm hs2 hs3 hr hh hs
    refine ⟨hval.1, hval.2, hmsg, ⟨c, rfl, rfl⟩, hrep, by simp, by simp, by simp, ?_⟩
    exact Or.inr ⟨t, by simp, by rw [ht], by rw [ht]⟩

/-- Filtering with a predicate after keeping only its complement yields
nothing. -/
theorem filter_not_self {α : Type} (p : α → Bool) (l : List α) :
    (l.filter (fun a => ! p a)).filter p = [] := by
  induction l with
  | nil => rfl
  | cons a l ih =>
    by_cases h : p a = true
    · simp [List.filter_cons, h, ih]
    · simp [List.filter_cons, h, ih]

/-- A successful `Message.create` preserves the content invariant: the new
document's content is a trim result checked non-empty. -/
theorem contentInvariant_create {s : Store} {uid : Nat} {tid role content : String}
    {m : Message} {s' : Store} (hinv : contentInvariant s)
    (h : Message.create s uid tid role content = .ok (m, s')) :
    contentInvariant s' := by
  obtain ⟨-, -, hc, hm, hs⟩ := message_create_ok_inv h
  subst hs
  intro x hx
  rcases List.mem_append.mp hx with hx | hx
  · exact hinv x hx
  · rw [List.mem_singleton] at hx
    subst hx
    rw [hm]
    exact jsTrim_jsTrim_ne content hc

/-! ## Concrete runs shared by witnesses and counterexamples -/

/-- The two messages appended by the demo chat below. -/
def demoHist : List Message :=
  [⟨7, "t1", "user", "Hello there", 0⟩, ⟨7, "t1", "assistant", "Hi!", 1⟩]

/-- The store after user 7 successfully chats "Hello there" on the fresh
thread `t1` against the empty store: the lazily created thread plus the two
messages. -/
def demoStore : Store :=
  ⟨[], [⟨"t1", "Hello there", 7, 2⟩], demoHist, 3⟩

/-- The demo chat run evaluates as expected. -/
theorem demo_run :
    sendMessage emptyStore 7 "Hello there" "t1" (.ok (some "Hi!")) =
      (.ok "Hi!" demoHist, demoStore) := by decide

/-- A store holding one registered user whose email is stored lowercased by
the schema setter. -/
def aliceStore : Store :=
  ⟨[⟨1, "Alice", "alice@example.com", "hashed1", "user"⟩], [], [], 2⟩

/-! ## C1 -/

/-- C1 (amended): `DELETE /thread/clear` deletes every thread owned by the
user and always answers the fixed success response (status 200, no count in
the body); afterwards the user's thread list is empty; the messages
collection is untouched, so messages owned by the user are NOT deleted and
remain in the store. -/
theorem clearAllThreads_spec (s : Store) (uid : Nat) :
    (clearAllThreads s (some uid)).1 = ⟨200, true, " All chats cleared successfully."⟩ ∧
    getThreads (clearAllThreads s (some uid)).2 uid = [] ∧
    (clearAllThreads s (some uid)).2.messages = s.messages ∧
    (clearAllThreads s (some uid)).2.users = s.users := by
  refine ⟨rfl, ?_, rfl, rfl⟩
  show Thread.findByUserNewestFirst
      { s with threads := s.threads.filter (fun t => ! (t.userId == uid)) } uid = []
  unfold Thread.findByUserNewestFirst
  rw [show ({ s with threads := s.threads.filter (fun t => ! (t.userId == uid)) } : Store).threads
      = s.threads.filter (fun t => ! (t.userId == uid)) from rfl]
  rw [filter_not_self (fun t => t.userId == uid) s.threads]
  rfl

/-- C1 counterexample: after a successful chat created thread `t1` with two
messages for user 7, `DELETE /thread/clear` reports success and empties the
thread list, yet both messages owned by user 7 remain in the store — the
claim that the user owns no messages afterwards is false. -/
theorem clearAllThreads_keeps_messages_cex :
    (clearAllThreads demoStore (some 7)).1.success = true ∧
    getThreads (clearAllThreads demoStore (some 7)).2 7 = [] ∧
    ((clearAllThreads demoStore (some 7)).2.messages.filter
      (fun m => m.userId == 7)).length = 2 := by decide

/-! ## C2 -/

/-- C2 (amended): a chat send that runs to completion preserves the
message/thread invariant — the thread for its (userId, threadId) pair exists
and is owned by the sender afterwards. (The invariant is not preserved by
the failure paths or by clear-all; see the counterexample.) -/
theorem sendMessage_ok_preserves_msgThreadInvariant
    {s : Store} {uid : Nat} {message tid : String} {fetch : FetchResult}
    {r : String} {hist : List Message} {s' : Store}
    (hinv : msgThreadInvariant s)
    (h : sendMessage s uid message tid fetch = (.ok r hist, s')) :
    msgThreadInvariant s' := by
  obtain ⟨-, -, -, -, -, hhist, hmsgs, -, hthr⟩ := sendMessage_ok_inv h
  intro m hm
  rw [hmsgs, List.mem_append] at hm
  rcases hm with hm | hm
  · obtain ⟨t, htm, h1, h2⟩ := hinv m hm
    rcases hthr with ⟨he, -⟩ | ⟨t', he, -, -⟩
    · exact ⟨t, by rw [he]; exact htm, h1, h2⟩
    · exact ⟨t, by rw [he]; exact List.mem_append_left _ htm, h1, h2⟩
  · rw [hhist] at hm
    simp only [List.mem_cons, List.not_mem_nil, or_false] at hm
    have hpair : m.threadId = tid ∧ m.userId = uid := by
      rcases hm with rfl | rfl <;> exact ⟨rfl, rfl⟩
    rcases hthr with ⟨he, t, htm, h1, h2⟩ | ⟨t, he, h1, h2⟩
    · exact ⟨t, by rw [he]; exact htm, by rw [h1, hpair.1], by rw [h2, hpair.2]⟩
    · exact ⟨t, by rw [he]; exact List.mem_append_right _ (List.mem_singleton_self t),
        by rw [h1, hpair.1], by rw [h2, hpair.2]⟩

/-- C2 witness: the demo chat run preserves the invariant. -/
theorem sendMessage_ok_preserves_msgThreadInvariant_witness :
    msgThreadInvariant demoStore :=
  sendMessage_ok_preserves_msgThreadInvariant (by decide) demo_run

/-- C2 counterexample: starting from the invariant-satisfying store produced
by the demo chat, `DELETE /thread/clear` leaves both messages in place while
deleting their thread, so the post-state violates the invariant — an
operation does leave persisted messages whose thread record is absent. -/
theorem clearAllThreads_orphans_messages_cex :
    msgThreadInvariant demoStore ∧
    ¬ msgThreadInvariant (clearAllThreads demoStore (some 7)).2 ∧
    (clearAllThreads demoStore (some 7)).2.messages ≠ [] := by decide

/-! ## C3 -/

/-- C3: registering a second account whose email differs from a stored
user's email only in letter case answers 400 "Email already registered" (the
conflict response) and leaves the store unchanged: the `lowercase` schema
setter normalises both the stored email and the `findOne` filter, so the
duplicate check hits before any creation is attempted. -/
theorem register_duplicate_email_conflict
    (s : Store) (hash : String → String) (u : User) (hu : u ∈ s.users)
    (name email password : String)
    (hn : name ≠ "") (he : email ≠ "") (hp : password ≠ "")
    (hcase : jsToLower email = u.email) :
    register s hash name email password =
      (⟨400, "Email already registered", none, false, false⟩, s) := by
  unfold register
  rw [if_neg (by simp [hn, he, hp])]
  rcases hfind : User.findOneByEmail s email with _ | v
  · exfalso
    unfold User.findOneByEmail at hfind
    rw [List.find?_eq_none] at hfind
    exact hfind u hu (by simp [hcase])
  · rfl

/-- C3 witness: with `alice@example.com` registered, re-registration as
`ALICE@Example.com` answers the conflict response. -/
theorem register_duplicate_email_conflict_witness :
    register aliceStore (fun p => p) "Bob" "ALICE@Example.com" "secret123" =
      (⟨400, "Email already registered", none, false, false⟩, aliceStore) :=
  register_duplicate_email_conflict aliceStore (fun p => p)
    ⟨1, "Alice", "alice@example.com", "hashed1", "user"⟩ (by decide)
    "Bob" "ALICE@Example.com" "secret123"
    (by decide) (by decide) (by decide) (by decide)

/-! ## C4 -/

/-- C4: after a successful `POST /chat`, `GET /history/:threadId` returns
the previous messages of the pair followed by exactly the two new messages,
the user message strictly before the assistant message (consecutive
timestamps), and the whole returned thread is ordered oldest-first by
creation timestamp. -/
theorem chat_then_history_ordered
    {s : Store} {uid : Nat} {message tid : String} {fetch : FetchResult}
    {r : String} {hist : List Message} {s' : Store}
    (hwf : Store.WF s)
    (h : sendMessage s uid message tid fetch = (.ok r hist, s')) :
    ∃ uMsg bMsg,
      hist = [uMsg, bMsg] ∧
      uMsg.role = "user" ∧ bMsg.role = "assistant" ∧
      uMsg.createdAt < bMsg.createdAt ∧
      getHistory s' uid tid = .ok (Message.findMany s uid tid ++ [uMsg, bMsg]) ∧
      (Message.findMany s' uid tid).Pairwise (fun a b => a.createdAt < b.createdAt) := by
  obtain ⟨-, -, -, -, -, hhist, hmsgs, -, -⟩ := sendMessage_ok_inv h
  refine ⟨_, _, hhist, rfl, rfl, Nat.lt_succ_self _, ?_, ?_⟩
  · unfold getHistory
    have hfm : Message.findMany s' uid tid =
        Message.findMany s uid tid ++
          [⟨uid, tid, "user", jsTrim message, s.clock⟩,
           ⟨uid, tid, "assistant", jsTrim r, s.clock + 1⟩] := by
      unfold Message.findMany
      rw [hmsgs, hhist, List.filter_append]
      congr 1
      simp
    rw [show sortByTimestamp (Message.findMany s' uid tid) = Message.findMany s' uid tid
        from rfl]
    rw [hfm, if_neg (by simp)]
  · have hp : (s'.messages).Pairwise (fun a b => a.createdAt < b.createdAt) := by
      rw [hmsgs, hhist, List.pairwise_append]
      refine ⟨hwf.1, ?_, ?_⟩
      · simp
      · intro a ha b hb
        have hlt := hwf.2 a ha
        simp only [List.mem_cons, List.not_mem_nil, or_false] at hb
        rcases hb with rfl | rfl
        · exact hlt
        · exact Nat.lt_succ_of_lt hlt
    unfold Message.findMany
    exact List.Pairwise.sublist (List.filter_sublist _) hp

/-- C4 witness: the demo chat followed by `GET /history/t1`. -/
theorem chat_then_history_ordered_witness :
    ∃ uMsg bMsg,
      demoHist = [uMsg, bMsg] ∧
      uMsg.role = "user" ∧ bMsg.role = "assistant" ∧
      uMsg.createdAt < bMsg.createdAt ∧
      getHistory demoStore 7 "t1" = .ok (Message.findMany emptyStore 7 "t1" ++ [uMsg, bMsg]) ∧
      (Message.findMany demoStore 7 "t1").Pairwise (fun a b => a.createdAt < b.createdAt) :=
  chat_then_history_ordered ⟨List.Pairwise.nil, by simp [emptyStore]⟩ demo_run

/-! ## C5 -/

/-- C5 (amended): `POST /auth/refresh` answers 401 only for a missing
refresh cookie or an unknown decoded user; an invalid-signature or expired
token makes `jwt.verify` throw into the catch-all, which answers 500
"Server error" — not 401; in every non-success case no token cookie is
set. -/
theorem refresh_failure_modes (s : Store) (verify : String → VerifyOutcome)
    (cookie : Option String) :
    (cookie = none → refresh s verify cookie = ⟨401, "No refresh token", none, false, false⟩) ∧
    (∀ tok, cookie = some tok → (verify tok = .invalidSig ∨ verify tok = .expired) →
      refresh s verify cookie = ⟨500, "Server error", none, false, false⟩) ∧
    (∀ tok uid, cookie = some tok → verify tok = .valid uid → User.findById s uid = none →
      refresh s verify cookie = ⟨401, "User not found", none, false, false⟩) ∧
    ((refresh s verify cookie).status ≠ 200 →
      (refresh s verify cookie).setAccessCookie = false ∧
      (refresh s verify cookie).setRefreshCookie = false) := by
  refine ⟨?_, ?_, ?_, ?_⟩
  · rintro rfl; rfl
  · rintro tok rfl (hv | hv) <;> simp [refresh, hv]
  · rintro tok uid rfl hv hnone
    simp [refresh, hv, hnone]
  · intro hne
    rcases cookie with _ | tok
    · exact ⟨rfl, rfl⟩
    rcases hv : verify tok with uid | _ | _
    · rcases hf : User.findById s uid with _ | u
      · simp [refresh, hv, hf]
      · simp [refresh, hv, hf] at hne
    · simp [refresh, hv]
    · simp [refresh, hv]

/-- C5 witness: the missing-cookie branch of the theorem at a concrete
input. -/
theorem refresh_failure_modes_witness :
    refresh emptyStore (fun _ => .expired) none =
      ⟨401, "No refresh token", none, false, false⟩ :=
  (refresh_failure_modes emptyStore (fun _ => .expired) none).1 rfl

/-- C5 counterexample: a present refresh cookie whose token fails
verification (bad signature, and likewise an expired one) is answered with
status 500, not with the claimed 401. -/
theorem refresh_invalid_token_500_cex :
    (refresh emptyStore (fun _ => .invalidSig) (some "token")).status = 500 ∧
    (refresh emptyStore (fun _ => .expired) (some "token")).status = 500 ∧
    (refresh emptyStore (fun _ => .invalidSig) (some "token")).status ≠ 401 := by decide

/-! ## C6 -/

/-- C6: when the remote completion call fails — the fetch promise rejects
(network error), the response status is not ok, or the body fails to parse
as JSON — `sendMessage` aborts with a 500 error ("OpenAI API error" for the
non-ok status, the catch-all "Chat error" otherwise), the persisted user
message remains (no compensating delete), and no assistant message or
thread is written. -/
theorem sendMessage_upstream_abort
    (s : Store) (uid : Nat) (message tid : String) (fetch : FetchResult)
    (hmsg : message ≠ "") (htid : tid ≠ "") (htrim : jsTrim message ≠ "")
    (hf : fetch = .netError ∨ fetch = .httpError ∨ fetch = .badJson) :
    sendMessage s uid message tid fetch =
      (.err ⟨500, if fetch = .httpError then "OpenAI API error" else "Chat error"⟩,
       { s with
          messages := s.messages ++ [⟨uid, tid, "user", jsTrim message, s.clock⟩],
          clock := s.clock + 1 }) := by
  unfold sendMessage
  rw [if_neg (by simp [hmsg, htid])]
  rw [Message.create_eq_ok htid (Or.inl rfl) htrim]
  rcases hf with rfl | rfl | rfl <;> simp

/-- C6 witness: an upstream non-ok status at a concrete input leaves exactly
the user message persisted. -/
theorem sendMessage_upstream_abort_witness :
    sendMessage emptyStore 7 "Hello" "t1" .httpError =
      (.err ⟨500, if (FetchResult.httpError = FetchResult.httpError)
          then "OpenAI API error" else "Chat error"⟩,
       { emptyStore with
          messages := emptyStore.messages ++ [⟨7, "t1", "user", jsTrim "Hello", emptyStore.clock⟩],
          clock := emptyStore.clock + 1 }) :=
  sendMessage_upstream_abort emptyStore 7 "Hello" "t1" .httpError
    (by decide) (by decide) (by decide) (Or.inr (Or.inl rfl))

/-! ## C7 -/

/-- Filtering with `q` after keeping only the complement of a weaker
predicate yields nothing. -/
theorem filter_incomp {α : Type} (p q : α → Bool) (l : List α)
    (h : ∀ a, q a = true → p a = true) :
    (l.filter (fun a => ! p a)).filter q = [] := by
  induction l with
  | nil => rfl
  | cons a l ih =>
    by_cases hp : p a = true
    · simp [List.filter_cons, hp, ih]
    · have hq : q a = false := by
        cases hqa : q a
        · rfl
        · exact absurd (h a hqa) hp
      simp [List.filter_cons, hp, hq, ih]

/-- C7: deleting an owned thread answers success and removes the thread
record and every message of the (threadId, userId) pair — the subsequent
`GET /thread/:threadId` answers the not-found error and the message count of
the pair is zero; and whenever `Thread.findOne({ threadId, userId })`
misses — because the thread does not exist or because it is owned by a
different user — `getThreadById` and `deleteThread` answer the identical
404 "Thread not found" error. -/
theorem deleteThread_spec (s : Store) (uid : Nat) (tid : String) :
    (∀ t, Thread.findOne s tid uid = some t →
      (deleteThread s uid tid).1 = .ok "Thread deleted successfully" ∧
      Thread.findOne (deleteThread s uid tid).2 tid uid = none ∧
      getThreadById (deleteThread s uid tid).2 uid tid = .err ⟨404, "Thread not found"⟩ ∧
      Message.findMany (deleteThread s uid tid).2 uid tid = []) ∧
    (Thread.findOne s tid uid = none →
      getThreadById s uid tid = .err ⟨404, "Thread not found"⟩ ∧
      deleteThread s uid tid = (.err ⟨404, "Thread not found"⟩, s)) := by
  constructor
  · intro t hfind
    have hdel : deleteThread s uid tid =
        (.ok "Thread deleted successfully",
         { s with
            threads := s.threads.filter (fun x => ! (x.threadId == tid && x.userId == uid)),
            messages := s.messages.filter (fun m => ! (m.threadId == tid && m.userId == uid)) }) := by
      unfold deleteThread Thread.findOneAndDelete Message.deleteMany
      rw [hfind]
    rw [hdel]
    have hfo : Thread.findOne
        { s with
           threads := s.threads.filter (fun x => ! (x.threadId == tid && x.userId == uid)),
           messages := s.messages.filter (fun m => ! (m.threadId == tid && m.userId == uid)) }
        tid uid = none := by
      unfold Thread.findOne
      rw [List.find?_eq_none]
      intro x hx
      rw [show ({ s with
            threads := s.threads.filter (fun x => ! (x.threadId == tid && x.userId == uid)),
            messages := s.messages.filter (fun m => ! (m.threadId == tid && m.userId == uid)) }
          : Store).threads
          = s.threads.filter (fun x => ! (x.threadId == tid && x.userId == uid)) from rfl] at hx
      rw [List.mem_filter] at hx
      have h2 : (x.threadId == tid && x.userId == uid) = false := by
        have h3 := hx.2
        cases hb : (x.threadId == tid && x.userId == uid)
        · rfl
        · rw [hb] at h3
          exact absurd h3 (by decide)
      rw [h2]
      simp
    refine ⟨rfl, hfo, ?_, ?_⟩
    · unfold getThreadById
      rw [hfo]
    · unfold Message.findMany
      exact filter_incomp _ _ s.messages
        (fun a ha => by rw [Bool.and_comm]; exact ha)
  · intro hnone
    constructor
    · unfold getThreadById
      rw [hnone]
    · unfold deleteThread Thread.findOneAndDelete
      rw [hnone]

/-- C7 witness: deleting `t1` from the demo store removes the thread and its
two messages; looking the same thread up as the different user 8 (and as
user 7 after deletion) answers the identical 404 error from both
handlers. -/
theorem deleteThread_spec_witness :
    ((deleteThread demoStore 7 "t1").1 = .ok "Thread deleted successfully" ∧
     Thread.findOne (deleteThread demoStore 7 "t1").2 "t1" 7 = none ∧
     getThreadById (deleteThread demoStore 7 "t1").2 7 "t1" = .err ⟨404, "Thread not found"⟩ ∧
     Message.findMany (deleteThread demoStore 7 "t1").2 7 "t1" = []) ∧
    (getThreadById demoStore 8 "t1" = .err ⟨404, "Thread not found"⟩ ∧
     deleteThread demoStore 8 "t1" = (.err ⟨404, "Thread not found"⟩, demoStore)) :=
  ⟨(deleteThread_spec demoStore 7 "t1").1 ⟨"t1", "Hello there", 7, 2⟩ (by decide),
   (deleteThread_spec demoStore 8 "t1").2 (by decide)⟩

/-! ## C8 -/

/-- C8: an empty or whitespace-only remote reply, or a payload whose content
path is absent, is replaced by the fixed placeholder — the reply is
`" No reply"` and the stored assistant message carries its trimmed,
non-empty content `"No reply"`; and every operation of the controller layer
preserves the invariant that every persisted message has non-empty content
after trimming. -/
theorem assistant_placeholder_and_content_nonempty :
    (∀ (s : Store) (uid : Nat) (message tid : String) (c : Option String)
        (r : String) (hist : List Message) (s' : Store),
      sendMessage s uid message tid (.ok c) = (.ok r hist, s') →
      (c = none ∨ ∀ x, c = some x → jsTrim x = "") →
      r = " No reply" ∧
      ∃ u b, hist = [u, b] ∧ b.role = "assistant" ∧
        b.content = "No reply" ∧ jsTrim b.content ≠ "") ∧
    (∀ (s : Store) (uid : Nat) (message tid : String) (fetch : FetchResult),
      contentInvariant s → contentInvariant (sendMessage s uid message tid fetch).2) ∧
    (∀ (s : Store) (uid : Nat) (tid : String),
      contentInvariant s → contentInvariant (deleteThread s uid tid).2) ∧
    (∀ (s : Store) (uid : Option Nat),
      contentInvariant s → contentInvariant (clearAllThreads s uid).2) ∧
    (∀ (s : Store) (uid : Nat) (tid title : String),
      contentInvariant s → contentInvariant (createThread s uid tid title).2) := by
  refine ⟨?_, ?_, ?_, ?_, ?_⟩
  · intro s uid message tid c r hist s' h hc
    obtain ⟨-, -, -, ⟨c', hfk, hr⟩, -, hhist, -, -, -⟩ := sendMessage_ok_inv h
    have hc' : c = c' := by
      simp only [FetchResult.ok.injEq] at hfk
      exact hfk
    have hrx : r = " No reply" := by
      rcases hc with hnone | hws
      · rw [hr, ← hc', hnone]
        rfl
      · rcases hx : c with _ | x
        · rw [hr, ← hc', hx]
          rfl
        · rw [hr, ← hc', hx]
          show (if jsTrim x = "" then " No reply" else jsTrim x) = " No reply"
          rw [if_pos (hws x hx)]
    refine ⟨hrx, ⟨uid, tid, "user", jsTrim message, s.clock⟩,
      ⟨uid, tid, "assistant", jsTrim r, s.clock + 1⟩, hhist, rfl, ?_, ?_⟩
    · show jsTrim r = "No reply"
      rw [hrx]
      decide
    · show jsTrim (jsTrim r) ≠ ""
      rw [hrx]
      decide
  · intro s uid message tid fetch hinv
    unfold sendMessage
    split
    · exact hinv
    split
    · exact hinv
    rename_i userMsg s1 hmc
    have hinv1 : contentInvariant s1 := contentInvariant_create hinv hmc
    split
    · exact hinv1
    · exact hinv1
    · exact hinv1
    rename_i c
    split
    · exact hinv1
    rename_i botMsg s2 hbc
    have hinv2 : contentInvariant s2 := contentInvariant_create hinv1 hbc
    split
    · exact hinv2
    split
    · exact hinv2
    rename_i t s3 htc
    obtain ⟨-, -, -, hs3⟩ := thread_create_ok_inv htc
    subst hs3
    intro m hm
    exact hinv2 m hm
  · intro s uid tid hinv
    rcases hf : Thread.findOne s tid uid with _ | t
    · have hdel : deleteThread s uid tid = (.err ⟨404, "Thread not found"⟩, s) := by
        unfold deleteThread Thread.findOneAndDelete
        rw [hf]
      rw [hdel]
      exact hinv
    · have hdel : (deleteThread s uid tid).2 =
          { s with
             threads := s.threads.filter (fun x => ! (x.threadId == tid && x.userId == uid)),
             messages := s.messages.filter (fun m => ! (m.threadId == tid && m.userId == uid)) } := by
        unfold deleteThread Thread.findOneAndDelete Message.deleteMany
        rw [hf]
      rw [hdel]
      intro m hm
      exact hinv m (List.mem_filter.mp hm).1
  · intro s uid hinv
    unfold clearAllThreads
    rcases uid with _ | u
    · exact hinv
    · exact hinv
  · intro s uid tid title hinv
    unfold createThread
    split
    · exact hinv
    split
    · exact hinv
    split
    · exact hinv
    rename_i t s1 htc
    obtain ⟨-, -, -, hs1⟩ := thread_create_ok_inv htc
    subst hs1
    intro m hm
    exact hinv m hm

/-- C8 witness: a whitespace-only remote reply at a concrete input is
stored as the placeholder, and the invariant holds of the demo store. -/
theorem assistant_placeholder_witness :
    (" No reply" : String) = " No reply" ∧
    (∃ u b,
      [(⟨7, "t2", "user", "Hello", 0⟩ : Message), ⟨7, "t2", "assistant", "No reply", 1⟩] = [u, b] ∧
      b.role = "assistant" ∧ b.content = "No reply" ∧ jsTrim b.content ≠ "") :=
  assistant_placeholder_and_content_nonempty.1 emptyStore 7 "Hello" "t2" (some "   ")
    " No reply"
    [⟨7, "t2", "user", "Hello", 0⟩, ⟨7, "t2", "assistant", "No reply", 1⟩]
    ⟨[], [⟨"t2", "Hello", 7, 2⟩],
     [⟨7, "t2", "user", "Hello", 0⟩, ⟨7, "t2", "assistant", "No reply", 1⟩], 3⟩
    (by decide) (Or.inr (fun x hx => by cases hx; decide))

/-! ## C9 -/

/-- C9: `createThread` is idempotent for a given user — when a thread with
the requested id already exists for that user, the handler answers 201 with
the existing document unchanged and the store is untouched. -/
theorem createThread_idempotent (s : Store) (uid : Nat) (tid title : String)
    (t : Thread) (hfind : Thread.findOne s tid uid = some t)
    (htid : tid ≠ "") (htitle : title ≠ "") :
    createThread s uid tid title = (.ok 201 t, s) := by
  unfold createThread
  rw [if_neg (by simp [htid, htitle])]
  rw [hfind]

/-- C9 witness: re-creating `t1` for user 7 returns the existing thread and
leaves the demo store unchanged. -/
theorem createThread_idempotent_witness :
    createThread demoStore 7 "t1" "Another title" =
      (.ok 201 ⟨"t1", "Hello there", 7, 2⟩, demoStore) :=
  createThread_idempotent demoStore 7 "t1" "Another title"
    ⟨"t1", "Hello there", 7, 2⟩ (by decide) (by decide) (by decide)

/-! ## C10 -/

/-- C10: the voice route mounts no credential check — the handler's result
is independent of any access cookie or authorization header on the request;
every error it answers carries status 500 (never a 401 authentication
failure), an error occurs only when no audio file is attached or one of the
upstream OpenAI calls fails, and with a file and successful upstream calls
the handler answers the success shape. -/
theorem voice_no_auth_check (req : VoiceReq) (up : VoiceUpstream) (b1 b2 : Bool) :
    voiceHandler req up = voiceHandler ⟨b1, b2, req.file⟩ up ∧
    (∀ st e, voiceHandler req up = .err st e → st = 500) ∧
    (∀ st e, voiceHandler req up = .err st e →
      req.file = none ∨ (∃ msg, up.transcribe = .error msg) ∨
      (∃ msg, up.complete = .error msg) ∨ (∃ msg, up.tts = .error msg)) ∧
    (∀ f t, req.file = some f → up.transcribe = .ok t →
      (∀ msg, up.tts ≠ .error msg) → (∀ msg, up.complete ≠ .error msg) →
      ∃ u x l, voiceHandler req up = .ok u x l) := by
  obtain ⟨rb1, rb2, file⟩ := req
  obtain ⟨tr, co, tts⟩ := up
  refine ⟨rfl, ?_, ?_, ?_⟩
  · intro st e h
    rcases file with _ | f
    · simp only [voiceHandler] at h
      cases h
      rfl
    rcases tr with e1 | t
    · simp only [voiceHandler] at h
      cases h
      rfl
    rcases co with e2 | c <;> rcases tts with e3 | u3 <;>
        simp only [voiceHandler] at h <;> split at h <;>
        first
          | (cases h; rfl)
          | cases h
  · intro st e h
    rcases file with _ | f
    · exact Or.inl rfl
    rcases tr with e1 | t
    · exact Or.inr (Or.inl ⟨e1, rfl⟩)
    rcases co with e2 | c
    · exact Or.inr (Or.inr (Or.inl ⟨e2, rfl⟩))
    rcases tts with e3 | u3
    · exact Or.inr (Or.inr (Or.inr ⟨e3, rfl⟩))
    · exfalso
      simp only [voiceHandler] at h
      split at h <;> cases h
  · intro f t hfile htr htts hco
    have hfile2 : file = some f := hfile
    subst hfile2
    have htr2 : tr = .ok t := htr
    subst htr2
    rcases tts with e3 | u3
    · exact absurd rfl (htts e3)
    rcases co with e2 | c
    · exact absurd rfl (hco e2)
    simp only [voiceHandler]
    split
    · exact ⟨_, _, _, rfl⟩
    · exact ⟨_, _, _, rfl⟩

/-- C10 witness: a concrete request with a cookie present and one with a
header present produce the same successful result. -/
theorem voice_no_auth_check_witness :
    (voiceHandler ⟨true, false, some "clip.webm"⟩ ⟨.ok "Hello voice", .ok (some "Hey"), .ok ()⟩ =
      voiceHandler ⟨false, true, some "clip.webm"⟩ ⟨.ok "Hello voice", .ok (some "Hey"), .ok ()⟩) ∧
    (∃ u x l,
      voiceHandler ⟨true, false, some "clip.webm"⟩ ⟨.ok "Hello voice", .ok (some "Hey"), .ok ()⟩ =
        .ok u x l) :=
  ⟨(voice_no_auth_check ⟨true, false, some "clip.webm"⟩
      ⟨.ok "Hello voice", .ok (some "Hey"), .ok ()⟩ false true).1,
   (voice_no_auth_check ⟨true, false, some "clip.webm"⟩
      ⟨.ok "Hello voice", .ok (some "Hey"), .ok ()⟩ false true).2.2.2
     "clip.webm" "Hello voice" rfl rfl (fun _ h => by cases h) (fun _ h => by cases h)⟩

end SigmaGPT
